import Mathlib

/-!
Verification of the dispatch core of `go-alfred` (`workflow.go`).

The Go source is embedded shallowly: pure helpers become Lean functions,
the stateful body of `Workflow.Run` becomes explicit state threading, and
the process's observable behaviour (stdout lines, scripts handed to the
external script runner, debug-log lines) is collected in a `RunOutcome`
record.  Standard-library behaviour that is not part of this repository
(JSON string parsing via `json.Unmarshal`) is passed in as an oracle
parameter; repository code that lives outside `workflow.go` (the fuzzy
matcher/sorter, `Stringify`, `RunScript`, the `Item` type) is either an
oracle parameter or modelled from the spec, as marked on each definition.
-/

namespace Alfred

/-- Char constants, used to avoid character-literal noise in function bodies. -/
def spaceChar : Char := Char.ofNat 32

/-- The double-quote character. -/
def quoteChar : Char := Char.ofNat 34

/-- The backslash character. -/
def backslashChar : Char := Char.ofNat 92

/-- `ModeType` constant `ModeDo` (workflow.go:31). -/
def ModeDo : String := "do"

/-- `ModeType` constant `ModeTell` (workflow.go:32). -/
def ModeTell : String := "tell"

/-- `ModeType` constant `ModeBack` (workflow.go:33). -/
def ModeBack : String := "back"

/-- Modelled from the spec: `ItemArg` (the argument payload an item passes
forward) is defined outside `workflow.go`; per the spec it is an
envelope-shaped value ("a minimal envelope carrying just the keyword"), so
it carries the same four primitive fields as the Envelope. -/
structure ItemArg where
  Keyword : String := ""
  Mode : String := ""
  Mod : String := ""
  Data : String := ""
deriving DecidableEq

/-- Modelled from the spec: `ItemMod` (a per-modifier result variant,
"alternate title/argument shown when that key is held") is defined outside
`workflow.go`. -/
structure ItemMod where
  Subtitle : String := ""
  Arg : Option ItemArg := none
deriving DecidableEq

/-- `workflowData` (workflow.go:533-539): the Envelope exchanged between
invocations.  All fields are strings; the zero value has every field empty. -/
structure workflowData where
  Keyword : String := ""
  Mode : String := ""
  Mod : String := ""
  Data : String := ""
deriving DecidableEq

/-- Modelled from the spec: `Item` (a result item) is defined outside
`workflow.go`; per the spec it carries title, subtitle, an autocomplete
string, an argument payload, per-modifier overrides, and a back-reference
to the Envelope (`data`, the unexported field assigned in `SendToAlfred`). -/
structure Item where
  Title : String := ""
  Subtitle : String := ""
  Autocomplete : String := ""
  Arg : Option ItemArg := none
  Mods : List (String × ItemMod) := []
  data : workflowData := {}
deriving DecidableEq

/-- Modelled from the spec: `Item.AddMod` records a per-modifier override
on the item. -/
def Item.AddMod (item : Item) (key : String) (m : ItemMod) : Item :=
  { item with Mods := item.Mods ++ [(key, m)] }

/-- `CommandDef` (workflow.go:37-43).  The Go `Mods` map is modelled as an
association list (Go map iteration order is unspecified; none of the
verified claims depends on it). -/
structure CommandDef where
  Keyword : String := ""
  Description : String := ""
  Mods : List (String × ItemMod) := []
  IsEnabled : Bool := false
  Arg : Option ItemArg := none

/-- `CommandDef.KeywordItem` (workflow.go:46-64). -/
def CommandDef.KeywordItem (c : CommandDef) : Item :=
  let item : Item :=
    { Title := c.Keyword
      Autocomplete := c.Keyword
      Subtitle := c.Description
      Arg := match c.Arg with
             | some a => some a
             | none => some { Keyword := c.Keyword } }
  c.Mods.foldl (fun it km => it.AddMod km.1 km.2) item

/-- A registered command (workflow.go:67-81).  Go uses an interface with
type assertions `c.(Filter)` / `c.(Action)`; a command may support either
or both capabilities, so each capability is an optional function.
`Filter.Items` returns `([]Item, error)` and `Action.Do` returns
`(string, error)`; both are modelled as `Except`. -/
structure Command where
  about : CommandDef
  filterItems : Option (String → String → Except String (List Item)) := none
  actionDo : Option (String → String → Except String String) := none

/-- `Workflow` (workflow.go:84-89). -/
structure Workflow where
  name : String := ""
  bundleID : String := ""
  cacheDir : String := ""
  dataDir : String := ""
deriving DecidableEq

/-- `OpenWorkflow` (workflow.go:93-116).  The ambient environment is the
`getenv` oracle and `os.MkdirAll` is the `mkdirAll` oracle (`none` =
success, `some e` = failure).  The result triple is the returned
`Workflow`, the list of directories created, and the returned error.
On a `MkdirAll` failure Go returns early with the zero-valued `Workflow`. -/
def OpenWorkflow (getenv : String → String) (mkdirAll : String → Option String)
    (workflowDir : String) (createDirs : Bool) :
    Workflow × List String × Option String :=
  let bundleID := getenv "alfred_workflow_bundleid"
  let name := getenv "alfred_workflow_name"
  let cacheDir := getenv "alfred_workflow_cache"
  let dataDir := getenv "alfred_workflow_data"
  if createDirs then
    match mkdirAll cacheDir with
    | some e => ({}, [], some e)
    | none =>
      match mkdirAll dataDir with
      | some e => ({}, [cacheDir], some e)
      | none =>
        ({ name := name, bundleID := bundleID, cacheDir := cacheDir,
           dataDir := dataDir }, [cacheDir, dataDir], none)
  else
    ({ name := name, bundleID := bundleID, cacheDir := cacheDir,
       dataDir := dataDir }, [], none)

/-!  JSON values and rendering.  `encoding/json` is standard-library code;
the struct-tag-directed shape of the produced JSON (which fields appear,
`omitempty` behaviour) is taken from the tags in `workflow.go`, while the
textual rendering (quoting/escaping) is a standard JSON writer. -/

/-- A JSON value (the fragment needed by this code: strings, arrays,
objects). -/
inductive Json where
  | str : String → Json
  | arr : List Json → Json
  | obj : List (String × Json) → Json

/-- Escape one character for inclusion in a quoted string (quote and
backslash; the strings exchanged by the verified claims contain no control
characters). -/
def escapeChar (c : Char) : String :=
  if c = quoteChar then "\\\""
  else if c = backslashChar then "\\\\"
  else String.singleton c

/-- Escape a string for inclusion between quotes. -/
def escapeString (s : String) : String :=
  String.join (s.toList.map escapeChar)

/-- `strconv.Quote` (standard library): wrap in double quotes, escaping
quote and backslash. -/
def goQuote (s : String) : String :=
  "\"" ++ escapeString s ++ "\""

mutual

/-- Render a JSON value to text. -/
def renderJson : Json → String
  | .str s => goQuote s
  | .arr xs => "[" ++ renderJsonList xs ++ "]"
  | .obj fs => "\x7b" ++ renderJsonFields fs ++ "\x7d"

/-- Render the comma-separated elements of a JSON array. -/
def renderJsonList : List Json → String
  | [] => ""
  | [x] => renderJson x
  | x :: y :: xs => renderJson x ++ "," ++ renderJsonList (y :: xs)

/-- Render the comma-separated fields of a JSON object. -/
def renderJsonFields : List (String × Json) → String
  | [] => ""
  | [(k, v)] => goQuote k ++ ":" ++ renderJson v
  | (k, v) :: f :: fs => goQuote k ++ ":" ++ renderJson v ++ "," ++ renderJsonFields (f :: fs)

end

/-- Look up a field of a JSON object by key (first match wins). -/
def jsonLookup : List (String × Json) → String → Option Json
  | [], _ => none
  | (k, v) :: rest, key => if k = key then some v else jsonLookup rest key

/-- Read an optional JSON field as a string, defaulting to `""` when the
field is absent or not a string (Go leaves the struct field at its zero
value). -/
def getStr : Option Json → String
  | some (.str s) => s
  | _ => ""

/-- `json.Marshal` of `workflowData`, directed by the struct tags at
workflow.go:533-539: each of `keyword`, `mode`, `mod`, `data` carries
`omitempty`, so an empty field is omitted. -/
def marshalWorkflowData (d : workflowData) : Json :=
  Json.obj
    ((if d.Keyword = "" then [] else [("keyword", Json.str d.Keyword)]) ++
     (if d.Mode = "" then [] else [("mode", Json.str d.Mode)]) ++
     (if d.Mod = "" then [] else [("mod", Json.str d.Mod)]) ++
     (if d.Data = "" then [] else [("data", Json.str d.Data)]))

/-- `json.Unmarshal` of a JSON value into a `workflowData`: read each
tagged field, leaving absent fields at the zero value; a non-object leaves
the whole struct at its zero value. -/
def unmarshalWorkflowDataJson : Json → workflowData
  | .obj fields =>
    { Keyword := getStr (jsonLookup fields "keyword")
      Mode := getStr (jsonLookup fields "mode")
      Mod := getStr (jsonLookup fields "mod")
      Data := getStr (jsonLookup fields "data") }
  | _ => {}

/-- Modelled from the spec: the serialization of an `ItemArg` (the `Item`
machinery lives outside `workflow.go`); like the Envelope it is an
all-primitive struct with `omitempty` fields. -/
def marshalItemArg (a : ItemArg) : Json :=
  Json.obj
    ((if a.Keyword = "" then [] else [("keyword", Json.str a.Keyword)]) ++
     (if a.Mode = "" then [] else [("mode", Json.str a.Mode)]) ++
     (if a.Mod = "" then [] else [("mod", Json.str a.Mod)]) ++
     (if a.Data = "" then [] else [("data", Json.str a.Data)]))

/-- Modelled from the spec: the serialization of a per-modifier override. -/
def marshalItemMod (m : ItemMod) : Json :=
  Json.obj
    ([("subtitle", Json.str m.Subtitle)] ++
     (match m.Arg with
      | some a => [("arg", marshalItemArg a)]
      | none => []))

/-- Modelled from the spec: the serialization of an `Item` (defined outside
`workflow.go`).  Per the spec the serialized item carries its title,
subtitle, autocomplete string, argument payload, per-modifier overrides,
and its Envelope back-reference (`data`), so that a subsequent invocation
selecting the item receives that Envelope as its second positional
argument. -/
def marshalItem (i : Item) : Json :=
  Json.obj
    ([("title", Json.str i.Title),
      ("subtitle", Json.str i.Subtitle),
      ("autocomplete", Json.str i.Autocomplete)] ++
     (match i.Arg with
      | some a => [("arg", marshalItemArg a)]
      | none => []) ++
     (i.Mods.map (fun km => (km.1, marshalItemMod km.2))) ++
     [("data", marshalWorkflowData i.data)])

/-- The loop body of `SendToAlfred` (workflow.go:478-480):
`for _, item := range items { item.data = data }` copies each element into
the range variable `item`, assigns to that copy, and discards it, so the
elements of `items` are left unchanged. -/
def attachLoop (items : List Item) (data : workflowData) : List Item :=
  items.map (fun i =>
    let item := { i with data := data }
    i)

/-- `Workflow.SendToAlfred` (workflow.go:477-483): runs the (ineffective)
attach loop, then marshals the item list and prints it as one line.  The
returned string is that line. -/
def SendToAlfred (items : List Item) (data : workflowData) : String :=
  renderJson (Json.arr ((attachLoop items data).map marshalItem))

/-- Split a character list at the first space: the part before it and the
part after it (the rest is unsplit even if it contains further spaces). -/
def splitCmdAux : List Char → List Char × List Char
  | [] => ([], [])
  | c :: cs =>
    if c = spaceChar then ([], cs)
    else
      let p := splitCmdAux cs
      (c :: p.1, p.2)

/-- Modelled from the spec: `SplitCmd` (defined outside `workflow.go`)
splits a raw argument into its leading keyword token and the remainder —
the keyword is the run of characters up to, not including, the first
space; the remainder is everything after that space, or empty if no space
exists. -/
def SplitCmd (s : String) : String × String :=
  let p := splitCmdAux s.toList
  (String.mk p.1, String.mk p.2)

/-- `strings.Trim(arg, " ")` (standard library): remove leading and
trailing spaces. -/
def trimSpaces (s : String) : String :=
  String.mk (((s.toList.dropWhile (· = spaceChar)).reverse.dropWhile (· = spaceChar)).reverse)

/-- Keyword resolution (workflow.go:209-230): returns
`(keyword, new arg, autocomplete prefix)`.  When the Envelope carries no
keyword, the keyword is split off the raw argument, the prefix is the
keyword (plus a trailing space when the argument is longer than the
keyword) and the remainder becomes the new argument; otherwise the
Envelope's keyword is used and the raw argument is space-trimmed. -/
def resolveRequest (arg : String) (data : workflowData) : String × String × String :=
  let keyword := data.Keyword
  if keyword = "" then
    let p := SplitCmd arg
    let kw := p.1
    let pfx := if arg.length > kw.length then kw ++ " " else kw
    (kw, p.2, pfx)
  else
    (keyword, trimSpaces arg, "")

/-- The result of argument parsing (workflow.go:151-171): the raw
argument, the decoded Envelope, the outer `err` variable, and the debug-log
lines produced. -/
structure ParseResult where
  arg : String := ""
  data : workflowData := {}
  err : Option String := none
  log : List String := []
deriving DecidableEq

/-- Argument parsing (workflow.go:151-171).  `unmarshalInto s base` is the
oracle for `json.Unmarshal([]byte(s), &base)` (merging decoded fields into
`base`; at these call sites `base` is the zero value).

One argument: try to decode it as an Envelope, else treat it as the raw
argument (the error is shadowed — non-fatal).  More than one argument: the
first is the raw argument and the second, if non-empty, is decoded as the
Envelope — here the decode error is assigned to the outer `err`; any
arguments beyond the second are never read.  Zero arguments: the outer
`err` is set to the (mislabelled) "More than 2 args" message. -/
def parseArgs (unmarshalInto : String → workflowData → Except String workflowData)
    (args : List String) : ParseResult :=
  match args with
  | [a0] =>
    match unmarshalInto a0 {} with
    | .error e => { arg := a0, log := ["Couldn\x27t parse first arg as data: " ++ e] }
    | .ok d => { data := d }
  | a0 :: a1 :: _ =>
    if a1 = "" then { arg := a0 }
    else
      match unmarshalInto a1 {} with
      | .error e =>
        { arg := a0, err := some e,
          log := ["Couldn\x27t parse second arg as data: " ++ e] }
      | .ok d => { arg := a0, data := d }
  | [] => { err := some "More than 2 args were provided; only 2 are accepted" }

/-- One iteration of the tell-mode command loop (workflow.go:240-270),
threading `(items, err)`.  When the Envelope carries a keyword, the
enabled Filter with that exact keyword is invoked; on success Go appends
each returned item and only afterwards assigns the prefixed `Autocomplete`
to the range-variable copy (workflow.go:254-260), so the appended items
keep their original autocomplete strings and the prefix argument is
unused.  When the Envelope carries no keyword, a menu item is synthesized
for every enabled command with a fuzzy-matching keyword that is a Filter
or carries a fixed argument. -/
def tellStep (fm : String → String → Bool) (data : workflowData)
    (arg keyword _pfx : String) (st : List Item × Option String) (c : Command) :
    List Item × Option String :=
  let d := c.about
  if d.IsEnabled = false then st
  else if data.Keyword ≠ "" then
    match c.filterItems with
    | some f =>
      if d.Keyword = data.Keyword then
        match f arg data.Data with
        | .ok filterItems => (st.1 ++ filterItems, none)
        | .error e => (st.1, some e)
      else st
    | none => st
  else if fm d.Keyword keyword then
    if c.filterItems.isSome || d.Arg.isSome then (st.1 ++ [d.KeywordItem], st.2)
    else st
  else st

/-- The do-mode action search (workflow.go:301-317): the first enabled,
Action-capable command whose keyword matches exactly. -/
def findAction (commands : List Command) (keyword : String) :
    Option (String → String → Except String String) :=
  match commands with
  | [] => none
  | c :: rest =>
    if c.about.IsEnabled then
      match c.actionDo with
      | some f => if c.about.Keyword = keyword then some f else findAction rest keyword
      | none => findAction rest keyword
    else findAction rest keyword

/-- `blockConfig` (workflow.go:521-528), flattened: `Arg` is the
`alfredworkflow.arg` field and `Data` the `alfredworkflow.variables.data`
field. -/
structure blockConfig where
  Arg : String := ""
  Data : String := ""

/-- `json.Marshal` of a `blockConfig`, directed by the struct tags at
workflow.go:521-528 (Go's `omitempty` never omits a non-pointer struct
field, so `variables` is always present; `data` inside it is omitted when
empty). -/
def marshalBlockConfig (b : blockConfig) : Json :=
  Json.obj
    [("alfredworkflow", Json.obj
      [("arg", Json.str b.Arg),
       ("variables", Json.obj
         (if b.Data = "" then [] else [("data", Json.str b.Data)]))])]

/-- Modelled from the spec: `Stringify` (the Envelope Codec's serializer,
defined outside `workflow.go`) produces the JSON text of a value. -/
def stringifyData (d : workflowData) : String :=
  renderJson (marshalWorkflowData d)

/-- Modelled from the spec: `Stringify` applied to a `blockConfig`. -/
def stringifyBlock (b : blockConfig) : String :=
  renderJson (marshalBlockConfig b)

/-- Modelled from the spec: `appName`, the host launcher application's
name, a constant defined outside `workflow.go` and interpolated into
loopback trigger scripts. -/
def appName : String := "Alfred 3"

/-- The loopback trigger script built at workflow.go:190-193. -/
def loopbackScript (bundleID quotedBlock : String) : String :=
  "tell application \"" ++ appName ++ "\" to run trigger \"start\" in workflow \"" ++
    bundleID ++ "\" with argument " ++ quotedBlock

/-- The window-dismiss script run in do mode (workflow.go:295-296). -/
def keyCodeScript : String :=
  "tell application \"System Events\" to key code 53"

/-- The observable behaviour of one `Run` invocation: the lines printed to
stdout, the scripts handed to the external script runner (in order), and
the debug-log lines. -/
structure RunOutcome where
  stdout : List String := []
  scripts : List String := []
  log : List String := []
deriving DecidableEq

/-- The final-stage deferral (workflow.go:186-201): serialize the current
Envelope into a `blockConfig`, hand the quoted block to the script runner
as a loopback trigger, log the runner's error (or its output) and return
without dispatching. -/
def finalOutcome (runScript : String → Except String String) (w : Workflow)
    (d : workflowData) (logs : List String) : RunOutcome :=
  let block : blockConfig := { Arg := "", Data := stringifyData d }
  let script := loopbackScript w.bundleID (goQuote (stringifyBlock block))
  { stdout := [], scripts := [script],
    log := logs ++ [match runScript script with
                    | .error e => "Error running loopback script: " ++ e
                    | .ok out => out] }

/-- The mode switch (workflow.go:233-336), given the resolved request.
In tell mode the command loop runs only when `err` is nil (but a Filter
error surfaces through the same finalization); the final list is emitted
via `SendToAlfred`.  In do mode the window-dismiss script runs when no
modifier key is held, then the matching enabled Action runs; a missing
action or an action error becomes an `Error:` line, printed only when
non-empty.  Any other mode prints the invalid-mode diagnostic — note that
Go prints the local variable `mode` declared at workflow.go:139, which is
never assigned and therefore always empty, rather than `data.Mode`. -/
def dispatch (fm : String → String → Bool) (fs : List Item → String → List Item)
    (commands : List Command) (data : workflowData) (arg keyword pfx : String)
    (err : Option String) (logs : List String) : RunOutcome :=
  if data.Mode = ModeTell then
    let acc :=
      match err with
      | none =>
        let st := commands.foldl (tellStep fm data arg keyword pfx) ([], none)
        let its := if arg ≠ "" then fs st.1 arg else st.1
        (its, st.2)
      | some e => (([] : List Item), some e)
    let items :=
      match acc.2 with
      | some e => acc.1 ++ [{ Title := "Error: " ++ e }]
      | none => if acc.1.isEmpty then [({ Title := "No results" } : Item)] else acc.1
    { stdout := [SendToAlfred items data], scripts := [], log := logs }
  else if data.Mode = ModeDo then
    let scripts := if err = none ∧ data.Mod = "" then [keyCodeScript] else []
    let res :=
      match err with
      | none =>
        match findAction commands keyword with
        | some doFn =>
          match doFn arg data.Data with
          | .ok out => (out, (none : Option String))
          | .error e => ("", some e)
        | none => ("", some ("No valid command in \x27" ++ arg ++ "\x27"))
      | some e => ("", some e)
    let output :=
      match res.2 with
      | some e => "Error: " ++ e
      | none => res.1
    { stdout := if output = "" then [] else [output], scripts := scripts, log := logs }
  else
    let mode : String := ""
    { stdout := ["Invalid mode: \x27" ++ mode ++ "\x27"], scripts := [], log := logs }

/-- The post-deferral half of the `err == nil` block (workflow.go:204-231)
followed by the mode switch: default an empty mode to tell, resolve the
keyword, dispatch. -/
def afterFinal (fm : String → String → Bool) (fs : List Item → String → List Item)
    (commands : List Command) (data : workflowData) (arg : String)
    (logs : List String) : RunOutcome :=
  let data := if data.Mode = "" then { data with Mode := ModeTell } else data
  let r := resolveRequest arg data
  dispatch fm fs commands data r.2.1 r.1 r.2.2 none logs

/-- `Workflow.Run` (workflow.go:138-337).  Oracle parameters:
`unmarshalInto` for `json.Unmarshal` into a `workflowData`, `runScript`
for the external script runner, `fm`/`fs` for the external fuzzy
matcher/sorter.  `final` is the parsed `-final` flag and `args` is
`flag.Args()`.

After parsing, the deferral/resolution block runs only when `err` is nil:
at a final stage an empty mode becomes tell, a back mode re-decodes the
Envelope's own data into the Envelope (merge semantics, failure ignored),
and a back/tell mode defers through the loopback trigger and returns.
Otherwise the mode switch dispatches; on a parse error the Envelope was
never touched, so its mode is empty and the switch falls to the
invalid-mode default. -/
def Run (unmarshalInto : String → workflowData → Except String workflowData)
    (runScript : String → Except String String)
    (fm : String → String → Bool) (fs : List Item → String → List Item)
    (w : Workflow) (final : Bool) (args : List String)
    (commands : List Command) : RunOutcome :=
  let p := parseArgs unmarshalInto args
  if p.err.isSome then
    dispatch fm fs commands p.data p.arg "" "" p.err p.log
  else if final then
    let d1 := if p.data.Mode = "" then { p.data with Mode := ModeTell } else p.data
    let d2 :=
      if d1.Mode = ModeBack then
        match unmarshalInto d1.Data d1 with
        | .ok nd => nd
        | .error _ => d1
      else d1
    if d2.Mode = ModeBack ∨ d2.Mode = ModeTell then finalOutcome runScript w d2 p.log
    else afterFinal fm fs commands d2 p.arg p.log
  else afterFinal fm fs commands p.data p.arg p.log

/-!  Concrete fixtures used by the closed counterexample/witness theorems. -/

/-- An unmarshal oracle on which every decode fails (models
`json.Unmarshal` applied to strings that are not valid JSON). -/
def cexU : String → workflowData → Except String workflowData :=
  fun _ _ => .error "invalid character"

/-- A script-runner oracle that always succeeds with empty output. -/
def cexRS : String → Except String String := fun _ => .ok ""

/-- A concrete fuzzy-match oracle: exact equality (any fuzzy matcher
matches a keyword against itself). -/
def cexFM : String → String → Bool := fun a b => a == b

/-- A concrete fuzzy-sort oracle: the identity reordering. -/
def cexFS : List Item → String → List Item := fun its _ => its

/-- A concrete workflow value. -/
def cexW : Workflow := { name := "w", bundleID := "test.bundle" }

/-- The descriptor of an enabled Filter with keyword `find`. -/
def findDef : CommandDef :=
  { Keyword := "find", Description := "find things", IsEnabled := true }

/-- The first item returned by the `find` Filter. -/
def item1 : Item := { Title := "one", Autocomplete := "one" }

/-- The second item returned by the `find` Filter. -/
def item2 : Item := { Title := "two", Autocomplete := "two" }

/-- An enabled Filter command with keyword `find` returning two items. -/
def findCmd : Command :=
  { about := findDef, filterItems := some (fun _ _ => .ok [item1, item2]) }

/-- The JSON text of an Envelope with mode `do` and keyword `open`. -/
def doEnvStr : String := "\x7b\"mode\":\"do\",\"keyword\":\"open\"\x7d"

/-- An unmarshal oracle that decodes `doEnvStr` and fails elsewhere. -/
def u4 : String → workflowData → Except String workflowData :=
  fun s base =>
    if s = doEnvStr then .ok { base with Mode := "do", Keyword := "open" }
    else .error "invalid character"

/-- An enabled Action command with keyword `open` returning `opened`. -/
def openCmd : Command :=
  { about := { Keyword := "open", IsEnabled := true },
    actionDo := some (fun _ _ => .ok "opened") }

/-- The JSON text of an Envelope with the unrecognized mode `bogus`. -/
def bogusEnvStr : String := "\x7b\"mode\":\"bogus\"\x7d"

/-- An unmarshal oracle that decodes `bogusEnvStr` and fails elsewhere. -/
def u5 : String → workflowData → Except String workflowData :=
  fun s base =>
    if s = bogusEnvStr then .ok { base with Mode := "bogus" }
    else .error "invalid character"

/-- The JSON text of an Envelope with mode `do` and no keyword. -/
def doKwEnvStr : String := "\x7b\"mode\":\"do\"\x7d"

/-- An unmarshal oracle that decodes `doKwEnvStr` and fails elsewhere. -/
def u6 : String → workflowData → Except String workflowData :=
  fun s base =>
    if s = doKwEnvStr then .ok { base with Mode := "do" }
    else .error "invalid character"

/-- The JSON text of an empty Envelope. -/
def emptyEnvStr : String := "\x7b\x7d"

/-- An unmarshal oracle that decodes `emptyEnvStr` to the default Envelope
and fails elsewhere. -/
def u7 : String → workflowData → Except String workflowData :=
  fun s base => if s = emptyEnvStr then .ok base else .error "invalid character"

/-- A script-runner oracle that always fails. -/
def rs7 : String → Except String String := fun _ => .error "boom"

/-!  Helper lemmas about the embedded dispatch pipeline.  These are shared
infrastructure; the claim theorems below build on them. -/

/-- Appending to a non-empty string yields a non-empty string (so the
do-mode `Error:` output always passes the non-empty print check). -/
theorem append_left_ne_empty (s t : String) (h : s ≠ "") : s ++ t ≠ "" := by
  intro hc
  apply h
  have hd : (s ++ t).data = ("" : String).data := by rw [hc]
  rw [String.data_append] at hd
  exact String.ext (List.append_eq_nil.mp hd).1

/-- When parsing sets the outer error, the deferral/resolution block is
skipped: `Run` dispatches the untouched Envelope with empty keyword and
prefix. -/
theorem run_parse_err
    {u : String → workflowData → Except String workflowData}
    {rs : String → Except String String} {fm : String → String → Bool}
    {fs : List Item → String → List Item} {w : Workflow} {final : Bool}
    {args : List String} {cmds : List Command} {a : String} {d : workflowData}
    {e : String} {l : List String}
    (hp : parseArgs u args = { arg := a, data := d, err := some e, log := l }) :
    Run u rs fm fs w final args cmds = dispatch fm fs cmds d a "" "" (some e) l := by
  unfold Run
  rw [hp]
  rfl

/-- Without the `-final` flag, a successful parse goes straight to keyword
resolution and dispatch. -/
theorem run_not_final
    {u : String → workflowData → Except String workflowData}
    {rs : String → Except String String} {fm : String → String → Bool}
    {fs : List Item → String → List Item} {w : Workflow}
    {args : List String} {cmds : List Command} {a : String} {d : workflowData}
    {l : List String}
    (hp : parseArgs u args = { arg := a, data := d, err := none, log := l }) :
    Run u rs fm fs w false args cmds = afterFinal fm fs cmds d a l := by
  unfold Run
  rw [hp]
  rfl

/-- After a successful parse, an Envelope whose mode is none of empty,
back, or tell reaches keyword resolution and dispatch unchanged, with or
without the `-final` flag. -/
theorem run_no_defer
    {u : String → workflowData → Except String workflowData}
    {rs : String → Except String String} {fm : String → String → Bool}
    {fs : List Item → String → List Item} {w : Workflow} {final : Bool}
    {args : List String} {cmds : List Command} {a : String} {d : workflowData}
    {l : List String}
    (hp : parseArgs u args = { arg := a, data := d, err := none, log := l })
    (hm1 : d.Mode ≠ "") (hm2 : d.Mode ≠ ModeBack) (hm3 : d.Mode ≠ ModeTell) :
    Run u rs fm fs w final args cmds = afterFinal fm fs cmds d a l := by
  unfold Run
  rw [hp]
  cases final <;>
    simp [hm1, hm2, hm3, if_neg hm1, if_neg hm2]

/-- At a final stage, a successfully parsed Envelope with empty mode is
re-tagged as tell and deferred through the loopback trigger. -/
theorem run_final_tell
    {u : String → workflowData → Except String workflowData}
    {rs : String → Except String String} {fm : String → String → Bool}
    {fs : List Item → String → List Item} {w : Workflow}
    {args : List String} {cmds : List Command} {a : String} {d : workflowData}
    {l : List String}
    (hp : parseArgs u args = { arg := a, data := d, err := none, log := l })
    (hm : d.Mode = "") :
    Run u rs fm fs w true args cmds
      = finalOutcome rs w { d with Mode := ModeTell } l := by
  have e1 : (ModeTell = ModeBack) = False := eq_false (by decide)
  have e2 : (ModeTell = ModeTell) = True := eq_true rfl
  unfold Run
  rw [hp]
  simp [hm, e1, e2]

/-- Resolution with an empty Envelope mode defaults the mode to tell
before splitting the keyword. -/
theorem afterFinal_empty_mode {fm : String → String → Bool}
    {fs : List Item → String → List Item} {cmds : List Command}
    {d : workflowData} {a : String} {l : List String} (hm : d.Mode = "") :
    afterFinal fm fs cmds d a l
      = dispatch fm fs cmds { d with Mode := ModeTell }
          (resolveRequest a { d with Mode := ModeTell }).2.1
          (resolveRequest a { d with Mode := ModeTell }).1
          (resolveRequest a { d with Mode := ModeTell }).2.2 none l := by
  unfold afterFinal
  rw [if_pos hm]

/-- Dispatch on a mode that is neither tell nor do prints only the
invalid-mode diagnostic — with the never-assigned local `mode` variable,
i.e. always the empty string. -/
theorem dispatch_invalid {fm : String → String → Bool}
    {fs : List Item → String → List Item} {cmds : List Command}
    {data : workflowData} {arg kw pfx : String} {err : Option String}
    {logs : List String} (h1 : data.Mode ≠ ModeTell) (h2 : data.Mode ≠ ModeDo) :
    dispatch fm fs cmds data arg kw pfx err logs
      = { stdout := ["Invalid mode: \x27\x27"], scripts := [], log := logs } := by
  unfold dispatch
  rw [if_neg h1, if_neg h2]
  rfl

/-- Do-mode dispatch with no matching enabled Action prints exactly the
`Error: No valid command` line built from the resolved argument. -/
theorem dispatch_do_no_action {fm : String → String → Bool}
    {fs : List Item → String → List Item} {cmds : List Command}
    {data : workflowData} {arg kw pfx : String} {logs : List String}
    (hm : data.Mode = ModeDo) (hfind : findAction cmds kw = none) :
    dispatch fm fs cmds data arg kw pfx none logs
      = { stdout := ["Error: No valid command in \x27" ++ arg ++ "\x27"],
          scripts := if data.Mod = "" then [keyCodeScript] else [], log := logs } := by
  unfold dispatch
  rw [hm, if_neg (show ModeDo ≠ ModeTell by decide), if_pos rfl, hfind]
  have hne : ("Error: No valid command in \x27" ++ arg ++ "\x27" : String) ≠ "" :=
    append_left_ne_empty _ _ (append_left_ne_empty _ _ (by decide))
  simp [← String.append_assoc, hne]

/-!  Claim theorems. -/

/-- C1 (counterexample): with two positional arguments whose non-empty
second argument fails to decode, dispatch does not proceed normally — the
enabled `find` Filter registry notwithstanding, the invocation prints only
the invalid-mode diagnostic, and in particular does not produce the
tell-mode emission that the same first argument yields when dispatch runs
(compare the single-argument invocation).  This refutes the claim that the
failure is non-fatal and commands still run. -/
theorem c1_counterexample :
    (Run cexU cexRS cexFM cexFS cexW false ["find", "notjson"] [findCmd]).stdout
      = ["Invalid mode: \x27\x27"] ∧
    (Run cexU cexRS cexFM cexFS cexW false ["find", "notjson"] [findCmd]).stdout
      ≠ [SendToAlfred [findDef.KeywordItem] { Mode := "tell" }] := by
  decide

/-- C2 (counterexample): argv = ["find"] with no data envelope and a
registry holding one enabled Filter of keyword `find` that returns two
items: tell mode emits a single synthesized menu item for the command, not
the Filter's two items with autocomplete prefixed by `find `. -/
theorem c2_counterexample :
    (Run cexU cexRS cexFM cexFS cexW false ["find"] [findCmd]).stdout
      = [SendToAlfred [findDef.KeywordItem] { Mode := "tell" }] ∧
    (Run cexU cexRS cexFM cexFS cexW false ["find"] [findCmd]).stdout
      ≠ [SendToAlfred
          [{ item1 with Autocomplete := "find " ++ item1.Autocomplete },
           { item2 with Autocomplete := "find " ++ item2.Autocomplete }]
          { Mode := "tell" }] := by
  decide

/-- C3 (counterexample): when the parser reports the malformed-invocation
error (zero positional arguments), the mode does not default to tell and
no single error result item is emitted — the invocation prints only the
invalid-mode diagnostic. -/
theorem c3_counterexample :
    (Run cexU cexRS cexFM cexFS cexW false [] [findCmd]).stdout
      = ["Invalid mode: \x27\x27"] ∧
    (Run cexU cexRS cexFM cexFS cexW false [] [findCmd]).stdout
      ≠ [SendToAlfred
          [{ Title := "Error: More than 2 args were provided; only 2 are accepted" }]
          { Mode := "tell" }] := by
  decide

/-- C4 (counterexample): an invocation with three positional arguments is
not rejected — no malformed-request error is set, and dispatch proceeds
far enough to run a registered Action command. -/
theorem c4_counterexample :
    (parseArgs u4 ["x", doEnvStr, "extra"]).err = none ∧
    (Run u4 cexRS cexFM cexFS cexW false ["x", doEnvStr, "extra"] [openCmd]).stdout
      = ["opened"] := by
  decide

/-- C5 (code evaluated at the failing input): with an Envelope whose mode
is `bogus`, the dispatcher prints `Invalid mode: ''` — the diagnostic
prints the never-assigned local `mode` variable, not the unrecognized mode
string `bogus`. -/
theorem c5_eval :
    (Run u5 cexRS cexFM cexFS cexW false [bogusEnvStr] [findCmd]).stdout
      = ["Invalid mode: \x27\x27"] ∧
    (Run u5 cexRS cexFM cexFS cexW false [bogusEnvStr] [findCmd]).stdout
      ≠ ["Invalid mode: \x27bogus\x27"] := by
  decide

/-- C9 (code evaluated on the failing pattern): the attach loop in
`SendToAlfred` assigns the Envelope to the range-variable copy and so
leaves the item list unchanged; consequently the emitted line is the same
for every Envelope — the serialized items do not carry the Envelope passed
to the emit operation. -/
theorem c9_attach_ineffective :
    ∀ (items : List Item) (d d' : workflowData),
      attachLoop items d = items ∧ SendToAlfred items d = SendToAlfred items d' := by
  intro items d d'
  constructor
  · simp [attachLoop]
  · simp [SendToAlfred, attachLoop]

/-- C10: opening a workflow without directory creation returns a nil
error and a `Workflow` whose four fields are read verbatim from the
environment; no directory is created, and the `workflowDir` parameter does
not influence the result (it does not occur on the right-hand side). -/
theorem c10_open_workflow :
    ∀ (getenv : String → String) (mkdirAll : String → Option String) (dir : String),
      OpenWorkflow getenv mkdirAll dir false
        = ({ name := getenv "alfred_workflow_name",
             bundleID := getenv "alfred_workflow_bundleid",
             cacheDir := getenv "alfred_workflow_cache",
             dataDir := getenv "alfred_workflow_data" }, [], none) := by
  intro getenv mkdirAll dir
  rfl

/-- C1 (amended): a failed decode of a non-empty second positional
argument assigns the outer error: the Envelope remains default-valued and
the first argument is recorded as the raw argument, but dispatch does not
proceed — the mode stays empty, the invocation prints only the
invalid-mode diagnostic, runs no script, and (the conclusion holding for
every registry) runs no command. -/
theorem c1_amended :
    ∀ (u : String → workflowData → Except String workflowData)
      (rs : String → Except String String) (fm : String → String → Bool)
      (fs : List Item → String → List Item) (w : Workflow) (final : Bool)
      (a0 a1 : String) (rest : List String) (cmds : List Command) (e : String),
      a1 ≠ "" → u a1 {} = .error e →
      parseArgs u (a0 :: a1 :: rest)
        = { arg := a0, data := {}, err := some e,
            log := ["Couldn\x27t parse second arg as data: " ++ e] } ∧
      (Run u rs fm fs w final (a0 :: a1 :: rest) cmds).stdout = ["Invalid mode: \x27\x27"] ∧
      (Run u rs fm fs w final (a0 :: a1 :: rest) cmds).scripts = [] := by
  intro u rs fm fs w final a0 a1 rest cmds e h1 h2
  have hp : parseArgs u (a0 :: a1 :: rest)
      = { arg := a0, data := {}, err := some e,
          log := ["Couldn\x27t parse second arg as data: " ++ e] } := by
    simp [parseArgs, h1, h2]
  rw [run_parse_err hp, dispatch_invalid (by decide) (by decide)]
  exact ⟨hp, rfl, rfl⟩

/-- C1 witness: the amended statement at the concrete invocation
`["find", "notjson"]` with an always-failing decoder. -/
theorem c1_amended_witness :
    parseArgs cexU ["find", "notjson"]
      = { arg := "find", data := {}, err := some "invalid character",
          log := ["Couldn\x27t parse second arg as data: " ++ "invalid character"] } ∧
    (Run cexU cexRS cexFM cexFS cexW false ["find", "notjson"] [findCmd]).stdout
      = ["Invalid mode: \x27\x27"] ∧
    (Run cexU cexRS cexFM cexFS cexW false ["find", "notjson"] [findCmd]).scripts = [] :=
  c1_amended cexU cexRS cexFM cexFS cexW false "find" "notjson" [] [findCmd]
    "invalid character" (by decide) rfl

/-- C2 (amended): argv = ["find"] with no data envelope and a registry
holding one enabled Filter with keyword `find`: because the Envelope
carries no keyword, the Filter's `Items` is not invoked; tell mode emits a
single synthesized menu item built from the command's descriptor. -/
theorem c2_amended :
    ∀ (u : String → workflowData → Except String workflowData)
      (rs : String → Except String String) (fm : String → String → Bool)
      (fs : List Item → String → List Item) (w : Workflow) (c : Command)
      (f : String → String → Except String (List Item)) (e : String),
      u "find" {} = .error e →
      c.about.Keyword = "find" → c.about.IsEnabled = true →
      c.filterItems = some f → fm "find" "find" = true →
      (Run u rs fm fs w false ["find"] [c]).stdout
        = [SendToAlfred [c.about.KeywordItem] { Mode := ModeTell }] := by
  intro u rs fm fs w c f e herr hK hEn hF hfm
  have hp : parseArgs u ["find"]
      = { arg := "find", data := {}, err := none,
          log := ["Couldn\x27t parse first arg as data: " ++ e] } := by
    simp [parseArgs, herr]
  rw [run_not_final hp, afterFinal_empty_mode rfl]
  have hres : resolveRequest "find" { ({} : workflowData) with Mode := ModeTell }
      = ("find", "", "find") := by decide
  rw [hres]
  simp [dispatch, tellStep, hEn, hK, hfm, hF, ModeTell]

/-- C2 witness: the amended statement at the concrete registry holding the
`find` Filter that returns two items. -/
theorem c2_amended_witness :
    (Run cexU cexRS cexFM cexFS cexW false ["find"] [findCmd]).stdout
      = [SendToAlfred [findCmd.about.KeywordItem] { Mode := ModeTell }] :=
  c2_amended cexU cexRS cexFM cexFS cexW findCmd (fun _ _ => .ok [item1, item2])
    "invalid character" rfl rfl rfl rfl rfl

/-- C3 (amended): when the parser reports the malformed-invocation error
(zero positional arguments), the mode remains empty and dispatch falls to
the default branch: the one-line invalid-mode diagnostic is printed, no
script runs, and no result-item list is emitted; no command runs (the
conclusion holds for every registry). -/
theorem c3_amended :
    ∀ (u : String → workflowData → Except String workflowData)
      (rs : String → Except String String) (fm : String → String → Bool)
      (fs : List Item → String → List Item) (w : Workflow) (final : Bool)
      (cmds : List Command),
      (Run u rs fm fs w final [] cmds).stdout = ["Invalid mode: \x27\x27"] ∧
      (Run u rs fm fs w final [] cmds).scripts = [] := by
  intro u rs fm fs w final cmds
  have hp : parseArgs u []
      = { arg := "", data := {},
          err := some "More than 2 args were provided; only 2 are accepted",
          log := [] } := rfl
  rw [run_parse_err hp, dispatch_invalid (by decide) (by decide)]
  exact ⟨rfl, rfl⟩

/-- C4 (amended): zero positional arguments set the (mislabelled)
malformed-request error and no command runs — the invocation prints only
the invalid-mode diagnostic; but three or more positional arguments are
treated exactly like the two-argument shape: every argument beyond the
second is ignored and no malformed-request error is set for them. -/
theorem c4_amended :
    (∀ (u : String → workflowData → Except String workflowData) (a0 a1 : String)
       (rest : List String), parseArgs u (a0 :: a1 :: rest) = parseArgs u [a0, a1]) ∧
    (∀ (u : String → workflowData → Except String workflowData),
       (parseArgs u []).err = some "More than 2 args were provided; only 2 are accepted") ∧
    (∀ (u : String → workflowData → Except String workflowData)
       (rs : String → Except String String) (fm : String → String → Bool)
       (fs : List Item → String → List Item) (w : Workflow) (final : Bool)
       (cmds : List Command),
       (Run u rs fm fs w final [] cmds).stdout = ["Invalid mode: \x27\x27"] ∧
       (Run u rs fm fs w final [] cmds).scripts = []) := by
  refine ⟨fun u a0 a1 rest => rfl, fun u => rfl, fun u rs fm fs w final cmds => ?_⟩
  have hp : parseArgs u []
      = { arg := "", data := {},
          err := some "More than 2 args were provided; only 2 are accepted",
          log := [] } := rfl
  rw [run_parse_err hp, dispatch_invalid (by decide) (by decide)]
  exact ⟨rfl, rfl⟩

/-- C6: in a do-mode invocation (successful parse, Envelope mode `do`)
whose resolved keyword matches no enabled Action command, the textual
output is exactly `Error: No valid command in '<arg>'`, where `<arg>` is
the resolved argument (the remainder after keyword resolution). -/
theorem c6_do_no_action :
    ∀ (u : String → workflowData → Except String workflowData)
      (rs : String → Except String String) (fm : String → String → Bool)
      (fs : List Item → String → List Item) (w : Workflow) (final : Bool)
      (args : List String) (cmds : List Command) (a : String) (d : workflowData)
      (logs : List String),
      parseArgs u args = { arg := a, data := d, err := none, log := logs } →
      d.Mode = ModeDo →
      findAction cmds (resolveRequest a d).1 = none →
      (Run u rs fm fs w final args cmds).stdout
        = ["Error: No valid command in \x27" ++ (resolveRequest a d).2.1 ++ "\x27"] := by
  intro u rs fm fs w final args cmds a d logs hp hm hfind
  have h1 : d.Mode ≠ "" := by rw [hm]; decide
  have h2 : d.Mode ≠ ModeBack := by rw [hm]; decide
  have h3 : d.Mode ≠ ModeTell := by rw [hm]; decide
  rw [run_no_defer hp h1 h2 h3]
  unfold afterFinal
  simp only [if_neg h1]
  rw [dispatch_do_no_action hm hfind]

/-- C6 witness: the concrete do-mode invocation `["open stuff", <envelope
with mode do>]` against an empty registry. -/
theorem c6_witness :
    (Run u6 cexRS cexFM cexFS cexW false ["open stuff", doKwEnvStr] []).stdout
      = ["Error: No valid command in \x27stuff\x27"] := by
  have h := c6_do_no_action u6 cexRS cexFM cexFS cexW false ["open stuff", doKwEnvStr]
    [] "open stuff" ({ Mode := "do" } : workflowData) [] (by decide) rfl rfl
  rw [h]
  decide

/-- C7: at a final stage with a successfully parsed Envelope whose mode is
empty, the mode is treated as tell: no output is printed, exactly one
script — the loopback trigger carrying the serialized Envelope (now with
mode tell) wrapped in the quoted LoopbackBlock — is handed to the script
runner, and the invocation ends there; the conclusion holds for every
registry and every script-runner result, and a runner error is only
appended to the log. -/
theorem c7_final_empty_mode :
    ∀ (u : String → workflowData → Except String workflowData)
      (rs : String → Except String String) (fm : String → String → Bool)
      (fs : List Item → String → List Item) (w : Workflow)
      (args : List String) (cmds : List Command) (a : String) (d : workflowData)
      (logs : List String),
      parseArgs u args = { arg := a, data := d, err := none, log := logs } →
      d.Mode = "" →
      (Run u rs fm fs w true args cmds).stdout = [] ∧
      (Run u rs fm fs w true args cmds).scripts
        = [loopbackScript w.bundleID (goQuote (stringifyBlock
            { Arg := "", Data := stringifyData { d with Mode := ModeTell } }))] ∧
      (∀ e, rs (loopbackScript w.bundleID (goQuote (stringifyBlock
            { Arg := "", Data := stringifyData { d with Mode := ModeTell } }))) = .error e →
        (Run u rs fm fs w true args cmds).log
          = logs ++ ["Error running loopback script: " ++ e]) := by
  intro u rs fm fs w args cmds a d logs hp hm
  rw [run_final_tell hp hm]
  refine ⟨rfl, rfl, ?_⟩
  intro e he
  simp only [finalOutcome]
  rw [he]

/-- C7 witness: the concrete final-stage invocation on an empty Envelope
with an always-failing script runner. -/
theorem c7_witness :
    (Run u7 rs7 cexFM cexFS cexW true [emptyEnvStr] []).stdout = [] ∧
    (Run u7 rs7 cexFM cexFS cexW true [emptyEnvStr] []).scripts
      = [loopbackScript cexW.bundleID (goQuote (stringifyBlock
          { Arg := "", Data := stringifyData { ({} : workflowData) with Mode := ModeTell } }))] ∧
    (Run u7 rs7 cexFM cexFS cexW true [emptyEnvStr] []).log
      = [] ++ ["Error running loopback script: " ++ "boom"] := by
  have h := c7_final_empty_mode u7 rs7 cexFM cexFS cexW [emptyEnvStr] [] ""
    ({} : workflowData) [] (by decide) rfl
  exact ⟨h.1, h.2.1, h.2.2 "boom" rfl⟩

/-- C8: serializing an Envelope (struct-tag-directed, `omitempty` on every
field) and deserializing the result reproduces the Envelope field for
field, for all four string fields — the opaque data string is restored
verbatim, without any further re-decoding. -/
theorem c8_roundtrip :
    ∀ d : workflowData, unmarshalWorkflowDataJson (marshalWorkflowData d) = d := by
  intro d
  obtain ⟨k, m, o, t⟩ := d
  by_cases hk : k = "" <;> by_cases hm : m = "" <;> by_cases ho : o = "" <;>
    by_cases ht : t = "" <;>
    simp [marshalWorkflowData, unmarshalWorkflowDataJson, jsonLookup, getStr,
      hk, hm, ho, ht]

end Alfred
